import Mathlib

/-!
Verification of the queue operations of the `rmq` package
(`pkg/rpc/rmq/queue.go`).

The Go code is shallowly embedded: each public operation becomes a pure
Lean function from its arguments and an environment of step outcomes
(the results the transport library would return for the connect step,
the channel-open step and the single broker command) to an outcome
record holding the Go return values, an event trace of the observable
side effects (connection/channel open and close, the broker command with
its exact arguments, log records), and the post-call values of the
caller's options structs (the Go code receives them by pointer, so a
mutation would be visible to the caller; the embedding returns the
cells so that absence of mutation is a provable statement).

The `connect` helper and `ConnectOpts` live in a file of the repository
that is not part of the sources given here; they are modelled from the
specification where so marked.
-/

namespace Rmq

/-- Abstract error values of the transport library.  `wrapped e` is the
terminal error returned by the connect helper, wrapping the last
underlying failure `e`. -/
inductive Err where
  | base (code : Nat)
  | wrapped (inner : Err)
deriving DecidableEq, BEq

/-- Shallow embedding of `amqp.Table` (`map[string]interface{}`): an
association list of keys to opaque values; only passed through, never
inspected, by the code under verification. -/
abbrev Table := List (String × String)

/-- Shallow embedding of `amqp.Queue`: the server-confirmed queue
descriptor (`Name`, `Messages`, `Consumers`). -/
structure AmqpQueue where
  Name : String
  Messages : Nat
  Consumers : Nat
deriving DecidableEq, BEq

/-- The Go zero value of `amqp.Queue` (`var q amqp.Queue`). -/
def zeroQueue : AmqpQueue := ⟨"", 0, 0⟩

/-- Modelled from the spec: `ConnectOptions` (`ConnectOpts` in the code;
its declaring file is not among the given sources).  "{ URL: string,
MaxRetries: non-negative integer, RetryInterval: duration }". -/
structure ConnectOpts where
  URL : String
  MaxRetries : Nat
  RetryInterval : Nat
deriving DecidableEq, BEq

/-- Modelled from the spec: `DefaultConnectOpts` (its declaring file is
not among the given sources).  The spec records only that absent
connection options are "defaulted"; no claim depends on the concrete
default field values, so the zero record stands in for them. -/
def DefaultConnectOpts : ConnectOpts := ⟨"", 0, 0⟩

/-- `DeclareQueueOpts` of `queue.go`. -/
structure DeclareQueueOpts where
  Durable : Bool
  AutoDelete : Bool
  Exclusive : Bool
  NoWait : Bool
  Args : Option Table
deriving DecidableEq, BEq

/-- `DefaultDeclareQueueOpts` of `queue.go`. -/
def DefaultDeclareQueueOpts : DeclareQueueOpts :=
  { Durable := true
    AutoDelete := false
    Exclusive := false
    NoWait := false
    Args := none }

/-- `QueueBindOpts` of `queue.go`. -/
structure QueueBindOpts where
  NoWait : Bool
  Args : Option Table
deriving DecidableEq, BEq

/-- `DefaultQueueBindOpts` of `queue.go`. -/
def DefaultQueueBindOpts : QueueBindOpts :=
  { NoWait := false
    Args := none }

/-- `QueueDeleteOpts` of `queue.go`. -/
structure QueueDeleteOpts where
  IfUnused : Bool
  IfEmpty : Bool
  NoWait : Bool
deriving DecidableEq, BEq

/-- `DefaultQueueDeleteOpts` of `queue.go`: the composite literal sets
only `NoWait: false`; `IfUnused` and `IfEmpty` take the Go zero value
`false`. -/
def DefaultQueueDeleteOpts : QueueDeleteOpts :=
  { IfUnused := false
    IfEmpty := false
    NoWait := false }

/-- A broker command as issued against the channel, with the fields in
the parameter order of the corresponding `amqp.Channel` primitive. -/
inductive BrokerCmd where
  | queueDeclare (name : String)
      (durable autoDelete exclusive noWait : Bool) (args : Option Table)
  | queueBind (name key exchange : String)
      (noWait : Bool) (args : Option Table)
  | queueDelete (name : String) (ifUnused ifEmpty noWait : Bool)
  | queuePurge (name : String) (noWait : Bool)
deriving DecidableEq, BEq

/-- Observable side effects of one queue operation, in order. -/
inductive Event where
  | connOpened
  | chanOpened
  | cmd (c : BrokerCmd)
  | logDeleted (queue : String) (purged : Nat)
  | logPurged (purged : Nat) (queue : String)
  | chanClosed
  | connClosed
deriving DecidableEq, BEq

/-- Outcomes the environment (transport library and broker) hands to the
steps of one operation: the error of `c.connect` (`none` = success), the
error of `conn.Channel()`, and the value-and-error results of each
channel-level broker primitive. -/
structure Env where
  connectErr : Option Err
  channelErr : Option Err
  declareRes : AmqpQueue × Option Err
  bindErr : Option Err
  deleteRes : Nat × Option Err
  purgeRes : Nat × Option Err

/-- Result of `Client.QueueDeclare`: the two Go return values, the event
trace, and the caller's options cells after the call. -/
structure DeclareOutcome where
  q : AmqpQueue
  err : Option Err
  trace : List Event
  optsAfter : Option DeclareQueueOpts
  connOptsAfter : Option ConnectOpts

/-- Result of `Client.QueueBind`. -/
structure BindOutcome where
  err : Option Err
  trace : List Event
  optsAfter : Option QueueBindOpts
  connOptsAfter : Option ConnectOpts

/-- Result of `Client.QueueDelete`. -/
structure DeleteOutcome where
  err : Option Err
  trace : List Event
  optsAfter : Option QueueDeleteOpts
  connOptsAfter : Option ConnectOpts

/-- Result of `Client.QueuePurge`. -/
structure PurgeOutcome where
  err : Option Err
  trace : List Event
  connOptsAfter : Option ConnectOpts

/-- `Client.QueueDeclare` of `queue.go`.  `opts = none` embeds a nil
`*DeclareQueueOpts`.  The deferred `conn.Close()` and `ch.Close()` run
in last-in-first-out order on every return path reached after their
registration, so the channel close precedes the connection close. -/
def QueueDeclare (name : String) (opts : Option DeclareQueueOpts)
    (connOpts : Option ConnectOpts) (env : Env) : DeclareOutcome :=
  let defaultOpts := match opts with
    | some o => o
    | none => DefaultDeclareQueueOpts
  let _defaultConnOpts := match connOpts with
    | some o => o
    | none => DefaultConnectOpts
  match env.connectErr with
  | some e => ⟨zeroQueue, some e, [], opts, connOpts⟩
  | none =>
    match env.channelErr with
    | some e => ⟨zeroQueue, some e, [.connOpened, .connClosed], opts, connOpts⟩
    | none =>
      -- q, err = ch.QueueDeclare(...); both the error branch and the
      -- success branch return the pair (q, err) as the primitive gave it.
      ⟨env.declareRes.1, env.declareRes.2,
        [.connOpened, .chanOpened,
          .cmd (.queueDeclare name defaultOpts.Durable defaultOpts.AutoDelete
            defaultOpts.Exclusive defaultOpts.NoWait defaultOpts.Args),
          .chanClosed, .connClosed],
        opts, connOpts⟩

/-- `Client.QueueBind` of `queue.go`.  Note the argument order: the
public signature is `(exchange, queue, key, ...)` while the channel
primitive is called as `ch.QueueBind(queue, key, exchange, ...)`. -/
def QueueBind (exchange queue key : String) (opts : Option QueueBindOpts)
    (connOpts : Option ConnectOpts) (env : Env) : BindOutcome :=
  let defaultOpts := match opts with
    | some o => o
    | none => DefaultQueueBindOpts
  let _defaultConnOpts := match connOpts with
    | some o => o
    | none => DefaultConnectOpts
  match env.connectErr with
  | some e => ⟨some e, [], opts, connOpts⟩
  | none =>
    match env.channelErr with
    | some e => ⟨some e, [.connOpened, .connClosed], opts, connOpts⟩
    | none =>
      ⟨env.bindErr,
        [.connOpened, .chanOpened,
          .cmd (.queueBind queue key exchange defaultOpts.NoWait defaultOpts.Args),
          .chanClosed, .connClosed],
        opts, connOpts⟩

/-- `Client.QueueDelete` of `queue.go`.  On success of the delete
primitive the purged-message count is written to the log and only the
nil error is returned. -/
def QueueDelete (queue : String) (opts : Option QueueDeleteOpts)
    (connOpts : Option ConnectOpts) (env : Env) : DeleteOutcome :=
  let defaultOpts := match opts with
    | some o => o
    | none => DefaultQueueDeleteOpts
  let _defaultConnOpts := match connOpts with
    | some o => o
    | none => DefaultConnectOpts
  match env.connectErr with
  | some e => ⟨some e, [], opts, connOpts⟩
  | none =>
    match env.channelErr with
    | some e => ⟨some e, [.connOpened, .connClosed], opts, connOpts⟩
    | none =>
      let cmdEv := Event.cmd (.queueDelete queue defaultOpts.IfUnused
        defaultOpts.IfEmpty defaultOpts.NoWait)
      match env.deleteRes with
      | (_, some e) =>
          ⟨some e, [.connOpened, .chanOpened, cmdEv, .chanClosed, .connClosed],
            opts, connOpts⟩
      | (num, none) =>
          ⟨none,
            [.connOpened, .chanOpened, cmdEv, .logDeleted queue num,
              .chanClosed, .connClosed],
            opts, connOpts⟩

/-- `Client.QueuePurge` of `queue.go`.  Takes the `noWait` flag directly
rather than an options struct; on success the purged-message count is
written to the log and only the nil error is returned. -/
def QueuePurge (queue : String) (noWait : Bool)
    (connOpts : Option ConnectOpts) (env : Env) : PurgeOutcome :=
  let _defaultConnOpts := match connOpts with
    | some o => o
    | none => DefaultConnectOpts
  match env.connectErr with
  | some e => ⟨some e, [], connOpts⟩
  | none =>
    match env.channelErr with
    | some e => ⟨some e, [.connOpened, .connClosed], connOpts⟩
    | none =>
      let cmdEv := Event.cmd (.queuePurge queue noWait)
      match env.purgeRes with
      | (_, some e) =>
          ⟨some e, [.connOpened, .chanOpened, cmdEv, .chanClosed, .connClosed],
            connOpts⟩
      | (num, none) =>
          ⟨none,
            [.connOpened, .chanOpened, cmdEv, .logPurged num queue,
              .chanClosed, .connClosed],
            connOpts⟩

/-- The broker commands issued during a trace, in order. -/
def cmds (t : List Event) : List BrokerCmd :=
  t.filterMap fun e => match e with
    | .cmd c => some c
    | _ => none

/-- Connection-open events of a trace. -/
def isConnOpen : Event → Bool
  | .connOpened => true
  | _ => false

/-- Connection-close events of a trace. -/
def isConnClose : Event → Bool
  | .connClosed => true
  | _ => false

/-- Channel-open events of a trace. -/
def isChanOpen : Event → Bool
  | .chanOpened => true
  | _ => false

/-- Channel-close events of a trace. -/
def isChanClose : Event → Bool
  | .chanClosed => true
  | _ => false

/-- Close events (of either kind) of a trace. -/
def isClose (e : Event) : Bool := isChanClose e || isConnClose e

/-- Log events of a trace. -/
def isLog : Event → Bool
  | .logDeleted _ _ => true
  | .logPurged _ _ => true
  | _ => false

/-- A trace releases its resources: every connection opened is closed,
every channel opened is closed, and the close events occur in
channel-before-connection order. -/
def resourceSafe (t : List Event) : Bool :=
  (t.countP isConnOpen == t.countP isConnClose) &&
  (t.countP isChanOpen == t.countP isChanClose) &&
  (t.filter isClose == [] || t.filter isClose == [.connClosed] ||
    t.filter isClose == [.chanClosed, .connClosed])

/-- Outcome of one transport-level connection attempt. -/
inductive AttemptOutcome where
  | ok
  | fail (e : Err)

/-- Events of the connect-with-retry helper: the numbered connection
attempts and the sleeps between them. -/
inductive ConnEvent where
  | attempt (idx : Nat)
  | sleep (interval : Nat)
deriving DecidableEq, BEq

/-- Modelled from the spec: the retry loop of the `c.connect` helper
(its declaring file is not among the given sources).  "attempt to open a
transport connection to URL.  On failure, if remaining retries > 0,
sleep RetryInterval, decrement, retry.  On success return the
Connection.  On exhaustion, return an error wrapping the last underlying
failure."  `oracle` gives the outcome of each numbered attempt. -/
def connectLoop (oracle : Nat → AttemptOutcome) (interval : Nat) :
    Nat → Nat → Option Err × List ConnEvent
  | 0, idx =>
    match oracle idx with
    | .ok => (none, [.attempt idx])
    | .fail e => (some (.wrapped e), [.attempt idx])
  | r + 1, idx =>
    match oracle idx with
    | .ok => (none, [.attempt idx])
    | .fail _ =>
      let rest := connectLoop oracle interval r (idx + 1)
      (rest.1, .attempt idx :: .sleep interval :: rest.2)

/-- Modelled from the spec: the `c.connect` helper used by every queue
operation (its declaring file is not among the given sources).  Runs the
retry loop with `MaxRetries` retries remaining, starting at attempt 0. -/
def connect (opts : ConnectOpts) (oracle : Nat → AttemptOutcome) :
    Option Err × List ConnEvent :=
  connectLoop oracle opts.RetryInterval opts.MaxRetries 0

/-- The trace the connect helper produces when every attempt fails:
attempts `idx, idx+1, ..., idx+r` with a sleep of `interval` between
each consecutive pair. -/
def failTrace (interval idx : Nat) : Nat → List ConnEvent
  | 0 => [.attempt idx]
  | r + 1 => .attempt idx :: .sleep interval :: failTrace interval (idx + 1) r

/-- Attempt events of a connect trace. -/
def isAttempt : ConnEvent → Bool
  | .attempt _ => true
  | _ => false

/-- Sleep events of a connect trace. -/
def isSleep : ConnEvent → Bool
  | .sleep _ => true
  | _ => false

/-- C1: for every queue name and every `ConnectOpts`, `QueueDeclare`
with `opts = nil` issues the queue-declare command with exactly the
documented defaults: `Durable = true`, `AutoDelete = false`,
`Exclusive = false`, `NoWait = false`, `Args = nil`. -/
theorem queueDeclare_nil_opts_uses_defaults (name : String)
    (connOpts : Option ConnectOpts) (env : Env) :
    cmds (QueueDeclare name none connOpts
      { env with connectErr := none, channelErr := none }).trace =
      [.queueDeclare name true false false false none] := rfl

/-- C4: `QueueBind` with `opts = nil` issues the bind command with
`NoWait = false` and `Args = nil`, and `QueueDelete` with `opts = nil`
issues the delete command with `IfUnused = false`, `IfEmpty = false` and
`NoWait = false`. -/
theorem bind_delete_nil_opts_all_false (exchange queue key dq : String)
    (connOpts : Option ConnectOpts) (env : Env) (num : Nat) :
    cmds (QueueBind exchange queue key none connOpts
      { env with connectErr := none, channelErr := none }).trace =
      [.queueBind queue key exchange false none] ∧
    cmds (QueueDelete dq none connOpts
      { env with connectErr := none, channelErr := none, deleteRes := (num, none) }).trace =
      [.queueDelete dq false false false] := ⟨rfl, rfl⟩

/-- C5: when the channel-level queue-declare primitive succeeds,
`QueueDeclare` returns exactly the queue descriptor the primitive
returned, together with a nil error. -/
theorem queueDeclare_returns_primitive_descriptor (name : String)
    (opts : Option DeclareQueueOpts) (connOpts : Option ConnectOpts)
    (env : Env) (q : AmqpQueue) :
    (QueueDeclare name opts connOpts
      { env with connectErr := none, channelErr := none, declareRes := (q, none) }).q = q ∧
    (QueueDeclare name opts connOpts
      { env with connectErr := none, channelErr := none, declareRes := (q, none) }).err = none := ⟨rfl, rfl⟩

/-- C9: `QueueBind` takes `(exchange, queue, key)` in that order but
issues the channel-level bind primitive with the arguments reordered to
`(queue, key, exchange)`. -/
theorem queueBind_reorders_arguments (exchange queue key : String)
    (o : QueueBindOpts) (connOpts : Option ConnectOpts) (env : Env) :
    cmds (QueueBind exchange queue key (some o) connOpts
      { env with connectErr := none, channelErr := none }).trace =
      [.queueBind queue key exchange o.NoWait o.Args] := rfl

/-- C10: whenever `QueueDeclare` fails at the connect or channel-open
step, it returns the zero-value queue descriptor together with the
non-nil error of that step. -/
theorem queueDeclare_early_failure_zero_descriptor (name : String)
    (opts : Option DeclareQueueOpts) (connOpts : Option ConnectOpts)
    (env : Env) (e : Err) :
    (QueueDeclare name opts connOpts
      { env with connectErr := some e }).q = zeroQueue ∧
    (QueueDeclare name opts connOpts
      { env with connectErr := some e }).err = some e ∧
    (QueueDeclare name opts connOpts
      { env with connectErr := none, channelErr := some e }).q = zeroQueue ∧
    (QueueDeclare name opts connOpts
      { env with connectErr := none, channelErr := some e }).err = some e :=
  ⟨rfl, rfl, rfl, rfl⟩

/-- C6: on success `QueueDelete` and `QueuePurge` return a nil error
only; the count of affected messages reported by the broker appears in
exactly one log record and nowhere in the returned value. -/
theorem delete_purge_log_count_only (queue : String)
    (opts : Option QueueDeleteOpts) (connOpts : Option ConnectOpts)
    (env : Env) (num : Nat) (noWait : Bool) :
    (QueueDelete queue opts connOpts
      { env with connectErr := none, channelErr := none, deleteRes := (num, none) }).err = none ∧
    (QueueDelete queue opts connOpts
      { env with connectErr := none, channelErr := none, deleteRes := (num, none) }).trace.filter isLog =
      [.logDeleted queue num] ∧
    (QueuePurge queue noWait connOpts
      { env with connectErr := none, channelErr := none, purgeRes := (num, none) }).err = none ∧
    (QueuePurge queue noWait connOpts
      { env with connectErr := none, channelErr := none, purgeRes := (num, none) }).trace.filter isLog =
      [.logPurged num queue] := ⟨rfl, rfl, rfl, rfl⟩

/-- C3: on every exit path of the four queue operations, every
connection opened is closed, every channel opened is closed, and the
channel is closed before its parent connection; no connection or channel
outlives the call. -/
theorem queue_ops_release_resources (name exchange queue key dq pq : String)
    (optsD : Option DeclareQueueOpts) (optsB : Option QueueBindOpts)
    (optsDel : Option QueueDeleteOpts) (noWait : Bool)
    (connOpts : Option ConnectOpts) (env : Env) :
    resourceSafe (QueueDeclare name optsD connOpts env).trace = true ∧
    resourceSafe (QueueBind exchange queue key optsB connOpts env).trace = true ∧
    resourceSafe (QueueDelete dq optsDel connOpts env).trace = true ∧
    resourceSafe (QueuePurge pq noWait connOpts env).trace = true := by
  obtain ⟨ce, che, dr, be, ⟨dn, dele⟩, ⟨pn, pe⟩⟩ := env
  refine ⟨?_, ?_, ?_, ?_⟩ <;>
    cases ce <;> cases che <;> cases dele <;> cases pe <;> rfl

/-- C8: no queue operation mutates the options values passed by the
caller: after any call, the caller's opts cell and connOpts cell hold
exactly the values they held before the call. -/
theorem queue_ops_preserve_caller_opts (name exchange queue key dq pq : String)
    (optsD : Option DeclareQueueOpts) (optsB : Option QueueBindOpts)
    (optsDel : Option QueueDeleteOpts) (noWait : Bool)
    (connOpts : Option ConnectOpts) (env : Env) :
    (QueueDeclare name optsD connOpts env).optsAfter = optsD ∧
    (QueueDeclare name optsD connOpts env).connOptsAfter = connOpts ∧
    (QueueBind exchange queue key optsB connOpts env).optsAfter = optsB ∧
    (QueueBind exchange queue key optsB connOpts env).connOptsAfter = connOpts ∧
    (QueueDelete dq optsDel connOpts env).optsAfter = optsDel ∧
    (QueueDelete dq optsDel connOpts env).connOptsAfter = connOpts ∧
    (QueuePurge pq noWait connOpts env).connOptsAfter = connOpts := by
  obtain ⟨ce, che, dr, be, ⟨dn, dele⟩, ⟨pn, pe⟩⟩ := env
  refine ⟨?_, ?_, ?_, ?_, ?_, ?_, ?_⟩ <;>
    cases ce <;> cases che <;> cases dele <;> cases pe <;> rfl

/-- C2: each of `QueueDeclare`, `QueueBind`, `QueueDelete` and
`QueuePurge` issues at most one broker command per call; the command is
issued only after both the connect step and the channel-open step
succeeded (and then exactly one is issued, preceded in the trace by the
connection and channel acquisitions); and a failure of any step makes
the operation return exactly that step's error and perform no later
step — no broker command after a connect or channel-open failure, and
no log record after a failed delete or purge command. -/
theorem queue_ops_single_cmd_error_propagation
    (name exchange queue key dq pq : String)
    (optsD : Option DeclareQueueOpts) (optsB : Option QueueBindOpts)
    (optsDel : Option QueueDeleteOpts) (noWait : Bool)
    (connOpts : Option ConnectOpts) (env : Env) (e : Err) (q : AmqpQueue)
    (num pnum : Nat) :
    ((cmds (QueueDeclare name optsD connOpts env).trace).length ≤ 1 ∧
      (QueueDeclare name optsD connOpts { env with connectErr := some e }).err = some e ∧
      cmds (QueueDeclare name optsD connOpts { env with connectErr := some e }).trace = [] ∧
      (QueueDeclare name optsD connOpts { env with connectErr := none, channelErr := some e }).err = some e ∧
      cmds (QueueDeclare name optsD connOpts { env with connectErr := none, channelErr := some e }).trace = [] ∧
      (∃ c, (QueueDeclare name optsD connOpts { env with connectErr := none, channelErr := none }).trace =
        [.connOpened, .chanOpened, .cmd c, .chanClosed, .connClosed]) ∧
      (QueueDeclare name optsD connOpts { env with connectErr := none, channelErr := none, declareRes := (q, some e) }).err = some e) ∧
    ((cmds (QueueBind exchange queue key optsB connOpts env).trace).length ≤ 1 ∧
      (QueueBind exchange queue key optsB connOpts { env with connectErr := some e }).err = some e ∧
      cmds (QueueBind exchange queue key optsB connOpts { env with connectErr := some e }).trace = [] ∧
      (QueueBind exchange queue key optsB connOpts { env with connectErr := none, channelErr := some e }).err = some e ∧
      cmds (QueueBind exchange queue key optsB connOpts { env with connectErr := none, channelErr := some e }).trace = [] ∧
      (∃ c, (QueueBind exchange queue key optsB connOpts { env with connectErr := none, channelErr := none }).trace =
        [.connOpened, .chanOpened, .cmd c, .chanClosed, .connClosed]) ∧
      (QueueBind exchange queue key optsB connOpts { env with connectErr := none, channelErr := none, bindErr := some e }).err = some e) ∧
    ((cmds (QueueDelete dq optsDel connOpts env).trace).length ≤ 1 ∧
      (QueueDelete dq optsDel connOpts { env with connectErr := some e }).err = some e ∧
      cmds (QueueDelete dq optsDel connOpts { env with connectErr := some e }).trace = [] ∧
      (QueueDelete dq optsDel connOpts { env with connectErr := none, channelErr := some e }).err = some e ∧
      cmds (QueueDelete dq optsDel connOpts { env with connectErr := none, channelErr := some e }).trace = [] ∧
      (∃ c, (QueueDelete dq optsDel connOpts { env with connectErr := none, channelErr := none, deleteRes := (num, some e) }).trace =
        [.connOpened, .chanOpened, .cmd c, .chanClosed, .connClosed]) ∧
      (QueueDelete dq optsDel connOpts { env with connectErr := none, channelErr := none, deleteRes := (num, some e) }).err = some e ∧
      (QueueDelete dq optsDel connOpts { env with connectErr := none, channelErr := none, deleteRes := (num, some e) }).trace.filter isLog = [] ∧
      (cmds (QueueDelete dq optsDel connOpts { env with connectErr := none, channelErr := none, deleteRes := (num, none) }).trace).length = 1) ∧
    ((cmds (QueuePurge pq noWait connOpts env).trace).length ≤ 1 ∧
      (QueuePurge pq noWait connOpts { env with connectErr := some e }).err = some e ∧
      cmds (QueuePurge pq noWait connOpts { env with connectErr := some e }).trace = [] ∧
      (QueuePurge pq noWait connOpts { env with connectErr := none, channelErr := some e }).err = some e ∧
      cmds (QueuePurge pq noWait connOpts { env with connectErr := none, channelErr := some e }).trace = [] ∧
      (∃ c, (QueuePurge pq noWait connOpts { env with connectErr := none, channelErr := none, purgeRes := (pnum, some e) }).trace =
        [.connOpened, .chanOpened, .cmd c, .chanClosed, .connClosed]) ∧
      (QueuePurge pq noWait connOpts { env with connectErr := none, channelErr := none, purgeRes := (pnum, some e) }).err = some e ∧
      (QueuePurge pq noWait connOpts { env with connectErr := none, channelErr := none, purgeRes := (pnum, some e) }).trace.filter isLog = [] ∧
      (cmds (QueuePurge pq noWait connOpts { env with connectErr := none, channelErr := none, purgeRes := (pnum, none) }).trace).length = 1) := by
  obtain ⟨ce, che, dr, be, ⟨dn, dele⟩, ⟨pn, pe⟩⟩ := env
  refine ⟨⟨?_, rfl, rfl, rfl, rfl, ⟨_, rfl⟩, rfl⟩,
    ⟨?_, rfl, rfl, rfl, rfl, ⟨_, rfl⟩, rfl⟩,
    ⟨?_, rfl, rfl, rfl, rfl, ⟨_, rfl⟩, rfl, rfl, rfl⟩,
    ⟨?_, rfl, rfl, rfl, rfl, ⟨_, rfl⟩, rfl, rfl, rfl⟩⟩
  · cases ce <;> cases che <;> simp [QueueDeclare, cmds]
  · cases ce <;> cases che <;> simp [QueueBind, cmds]
  · cases ce <;> cases che <;> cases dele <;> simp [QueueDelete, cmds]
  · cases ce <;> cases che <;> cases pe <;> simp [QueuePurge, cmds]

/-- When every numbered attempt fails, the retry loop with `r` retries
remaining starting at attempt `idx` performs attempts `idx .. idx + r`
with a sleep between consecutive attempts and returns the wrap of the
last failure. -/
theorem connectLoop_allFail (f : Nat → Err) (interval : Nat) :
    ∀ r idx, connectLoop (fun n => AttemptOutcome.fail (f n)) interval r idx =
      (some (.wrapped (f (idx + r))), failTrace interval idx r)
  | 0, _ => rfl
  | r + 1, idx => by
    have ih := connectLoop_allFail f interval r (idx + 1)
    have h1 : idx + 1 + r = idx + (r + 1) := by omega
    calc connectLoop (fun n => AttemptOutcome.fail (f n)) interval (r + 1) idx
        = ((connectLoop (fun n => AttemptOutcome.fail (f n)) interval r (idx + 1)).1,
            .attempt idx :: .sleep interval ::
              (connectLoop (fun n => AttemptOutcome.fail (f n)) interval r (idx + 1)).2) := rfl
      _ = (some (.wrapped (f (idx + 1 + r))),
            .attempt idx :: .sleep interval :: failTrace interval (idx + 1) r) := by rw [ih]
      _ = (some (.wrapped (f (idx + (r + 1)))), failTrace interval idx (r + 1)) := by
            rw [h1, failTrace]

/-- A fail trace with `r` retries holds `r + 1` attempt events. -/
theorem failTrace_attempt_count (interval : Nat) :
    ∀ r idx, (failTrace interval idx r).countP isAttempt = r + 1
  | 0, _ => by simp [failTrace, isAttempt, isSleep, List.countP_cons]
  | r + 1, idx => by
    have ih := failTrace_attempt_count interval r (idx + 1)
    simp [failTrace, List.countP_cons, isAttempt, isSleep, ih]

/-- A fail trace with `r` retries holds `r` sleep events. -/
theorem failTrace_sleep_count (interval : Nat) :
    ∀ r idx, (failTrace interval idx r).countP isSleep = r
  | 0, _ => by simp [failTrace, isAttempt, isSleep, List.countP_cons]
  | r + 1, idx => by
    have ih := failTrace_sleep_count interval r (idx + 1)
    simp [failTrace, List.countP_cons, isAttempt, isSleep, ih]

/-- C7: with `MaxRetries = N` and a transport failing on every attempt,
the connect step makes exactly `N + 1` attempts — its trace is attempts
`0 .. N` with one sleep of `RetryInterval` between consecutive attempts
(the shape of `failTrace`) — and returns a terminal error wrapping the
failure of the last attempt. -/
theorem connect_allFail_attempts (opts : ConnectOpts) (f : Nat → Err) :
    connect opts (fun n => AttemptOutcome.fail (f n)) =
      (some (.wrapped (f opts.MaxRetries)),
        failTrace opts.RetryInterval 0 opts.MaxRetries) ∧
    (connect opts (fun n => AttemptOutcome.fail (f n))).2.countP isAttempt =
      opts.MaxRetries + 1 ∧
    (connect opts (fun n => AttemptOutcome.fail (f n))).2.countP isSleep =
      opts.MaxRetries := by
  have h := connectLoop_allFail f opts.RetryInterval opts.MaxRetries 0
  refine ⟨by simpa [connect] using h, ?_, ?_⟩
  · simp [connect, h, failTrace_attempt_count]
  · simp [connect, h, failTrace_sleep_count]

end Rmq
